import Mathlib

/-!
Verification development for the kontainer-runtime bootstrap
(`src/nativeInterop/cinterop/bootstrap/bootstrap.c` and `netlink.c`).

The C sources are shallowly embedded: every syscall result and every byte
delivered by a `read` is an explicit parameter, machine integers are `Nat`/`Int`
with explicit wrap-around where the C code can overflow, and each process
stage is a pure function from its inputs to the list of externally visible
actions it performs together with its outcome (returning into the managed
runtime, or `_exit`/`exit` with a code).
-/

namespace Kontainer

/-! ## Constants from bootstrap.c and netlink.h -/

def CLONE_NEWUSER : Nat := 0x10000000
def CLONE_NEWPID  : Nat := 0x20000000
def CLONE_NEWNET  : Nat := 0x40000000
def CLONE_NEWIPC  : Nat := 0x08000000
def CLONE_NEWUTS  : Nat := 0x04000000
def CLONE_NEWNS   : Nat := 0x00020000

def SYNC_USERMAP_PLS  : Nat := 0x40
def SYNC_USERMAP_ACK  : Nat := 0x41
def SYNC_GRANDCHILD   : Nat := 0x44
def SYNC_CHILD_FINISH : Nat := 0x45

def SIGKILL : Nat := 9

def INIT_MSG : Nat := 62000

def CLONE_FLAGS_ATTR  : Nat := 27281
def UIDMAP_ATTR       : Nat := 27283
def GIDMAP_ATTR       : Nat := 27284
def ROOTFS_PATH_ATTR  : Nat := 27285
def BUNDLE_PATH_ATTR  : Nat := 27286
def CONTAINER_ID_ATTR : Nat := 27287
def USER_NS_ATTR      : Nat := 27288

def NLA_HDRLEN : Nat := 4
def NLMSG_HDRLEN : Nat := 16

/-! ## netlink.c : the configuration parser

`struct nlmsghdr` is read as one 16-byte block; a short read is modelled as
`none`.  The payload is a list of bytes (each `< 256`); multi-byte fields are
little-endian as on the target. -/

structure NlMsgHdr where
  nlmsgLen : Nat
  nlmsgType : Nat
  nlmsgFlags : Nat
  nlmsgSeq : Nat
  nlmsgPid : Nat
deriving DecidableEq, Repr

/-- Model of `struct kontainer_config` (netlink.h).  The C `char *` fields borrow into
the payload buffer; a pointer at offset `k` is modelled as the byte suffix of
the buffer starting at `k`, and the length-delimited map fields carry exactly
their `payload_len` bytes. -/
structure NlConfig where
  cloneFlags : Nat
  uidmap : List Nat
  gidmap : List Nat
  rootfsPath : List Nat
  bundlePath : List Nat
  containerId : List Nat
  userNsEnabled : Bool
deriving DecidableEq, Repr

def nlConfig0 : NlConfig :=
  { cloneFlags := 0, uidmap := [], gidmap := [], rootfsPath := [],
    bundlePath := [], containerId := [], userNsEnabled := false }

def le16 (a b : Nat) : Nat := a + 256 * b

def le32 (a b c d : Nat) : Nat := a + 256 * b + 65536 * c + 16777216 * d

/-- Macro `NLA_ALIGN(len) = ((len) + 4 - 1) & ~(4 - 1)`: round up to a multiple
of 4 (written with `%` so that `omega` can reason about it). -/
def NLA_ALIGN (n : Nat) : Nat := (n + 3) - (n + 3) % 4

/-- The body of the `switch (attr->nla_type)` in `nl_parse`: apply one
attribute to the config.  `rest` is the buffer suffix just past the 4-byte
attribute header (so `payload = rest.take payloadLen`, and the `char *`
string fields store the suffix itself, as the C code stores the raw
pointer).  Unknown attribute types only log and are skipped. -/
def applyAttr (t : Nat) (payloadLen : Nat) (rest : List Nat) (cfg : NlConfig) : NlConfig :=
  if t = CLONE_FLAGS_ATTR then
    if 4 ≤ payloadLen then
      { cfg with cloneFlags := le32 (rest.getD 0 0) (rest.getD 1 0) (rest.getD 2 0) (rest.getD 3 0) }
    else cfg
  else if t = UIDMAP_ATTR then
    { cfg with uidmap := rest.take payloadLen }
  else if t = GIDMAP_ATTR then
    { cfg with gidmap := rest.take payloadLen }
  else if t = ROOTFS_PATH_ATTR then
    { cfg with rootfsPath := rest }
  else if t = BUNDLE_PATH_ATTR then
    { cfg with bundlePath := rest }
  else if t = CONTAINER_ID_ATTR then
    { cfg with containerId := rest }
  else if t = USER_NS_ATTR then
    if 4 ≤ payloadLen then
      { cfg with userNsEnabled := le32 (rest.getD 0 0) (rest.getD 1 0) (rest.getD 2 0) (rest.getD 3 0) ≠ 0 }
    else
      { cfg with userNsEnabled := false }
  else cfg

/-- The `while (current < data + size)` attribute loop of `nl_parse`.
`remaining` is the unparsed suffix of the payload.  The `Bool` component
records whether the loop was left through the malformed-attribute `break`
(`nla_len < NLA_HDRLEN` or `current + nla_len > data + size`; a tail of
1–3 bytes cannot hold an attribute header and also leaves through the
`break`, whichever garbage the out-of-bounds header read yields). -/
def parseAttrs (remaining : List Nat) (cfg : NlConfig) : NlConfig × Bool :=
  match remaining with
  | [] => (cfg, false)
  | a :: b :: c :: d :: rest =>
    let nlaLen := le16 a b
    let nlaType := le16 c d
    if h : nlaLen < NLA_HDRLEN ∨ (4 + rest.length) < nlaLen then (cfg, true)
    else
      let payloadLen := nlaLen - NLA_HDRLEN
      let cfg' := applyAttr nlaType payloadLen rest cfg
      parseAttrs ((a :: b :: c :: d :: rest).drop (NLA_ALIGN nlaLen)) cfg'
  | _ => (cfg, true)
termination_by remaining.length
decreasing_by
  push_neg at h
  simp only [List.length_drop, List.length_cons]
  simp only [NLA_ALIGN, NLA_HDRLEN] at *
  omega

/-- Result of `nl_parse`: the C `bail` helper prints to stderr and
`exit(1)`s, so a bailing path terminates the process (`exited`); a path
that actually returns to the caller carries the returned `int` and the
filled-in config. -/
inductive NlResult where
  | exited (code : Nat)
  | ret (v : Int) (cfg : NlConfig)
deriving DecidableEq, Repr

/-- Macro-wise, `NLMSG_PAYLOAD(&hdr) = hdr.nlmsg_len - NLMSG_HDRLEN`, subtracting in
`uint32_t`. -/
def nlPayloadSize (h : NlMsgHdr) : Nat :=
  (h.nlmsgLen + 2 ^ 32 - NLMSG_HDRLEN) % 2 ^ 32

/-- Model of `nl_parse` (netlink.c).  Parameters stand for the process environment:
`hdr` is the result of the 16-byte header read (`none` = short read),
`avail` the bytes the payload `read` can deliver, `mallocOk` whether
`malloc` succeeds. -/
def nl_parse (hdr : Option NlMsgHdr) (avail : List Nat) (mallocOk : Bool) : NlResult :=
  match hdr with
  | none => .exited 1
  | some h =>
    if h.nlmsgType ≠ INIT_MSG then .exited 1
    else
      let size := nlPayloadSize h
      if size = 0 then .ret 0 nlConfig0
      else if mallocOk = false then .exited 1
      else if avail.length < size then .exited 1
      else .ret 0 (parseAttrs (avail.take size) nlConfig0).1

/-! ## Environment handling and role dispatch (bootstrap.c) -/

def isSpaceChar (c : Char) : Bool :=
  c = ' ' ∨ c = '\t' ∨ c = '\n' ∨ c = '\x0b' ∨ c = '\x0c' ∨ c = '\r'

def digitsVal (cs : List Char) : Nat :=
  (cs.takeWhile Char.isDigit).foldl (fun a c => 10 * a + (c.toNat - 48)) 0

/-- C `atoi`: skip leading whitespace, optional sign, then a maximal digit
run; a string with no leading digits yields 0. -/
def atoi (s : String) : Int :=
  match s.data.dropWhile isSpaceChar with
  | '-' :: rest => -(digitsVal rest : Int)
  | '+' :: rest => (digitsVal rest : Int)
  | cs => (digitsVal cs : Int)

/-- Model of `getenv_int` (bootstrap.c): `getenv` then `atoi`; −1 when the variable
is unset.  (The C doc comment claims −1 also for invalid values, but the
code returns whatever `atoi` yields.) -/
def getenv_int (v : Option String) : Int :=
  match v with
  | none => -1
  | some s => atoi s

/-- The environment variables the constructor reads. -/
structure Env where
  initpipe : Option String
  isInit : Option String
  syncpipe : Option String
deriving DecidableEq, Repr

/-- The process-wide globals `is_init_process` and `init_pid`. -/
structure Globals where
  isInitProcess : Bool
  initPid : Int
deriving DecidableEq, Repr

/-- Globals at program start: `is_init_process = 0`, `init_pid = -1`. -/
def globals0 : Globals := { isInitProcess := false, initPid := -1 }

def kontainer_is_init_process (g : Globals) : Nat :=
  if g.isInitProcess then 1 else 0

def kontainer_get_init_pid (g : Globals) : Int :=
  g.initPid

/-! ## Per-stage action traces (bootstrap.c)

The three stages of `kontainer_bootstrap` (plus the early dispatch) are
modelled as pure functions from the results of their syscalls — supplied
as explicit inputs — to the list of externally visible actions they
perform, their outcome, and the globals they leave behind. -/

/-- The six unidirectional message paths of the bootstrap.
`sync_pipe` carries `up10` (Stage-1 → Stage-0) and `down01`
(Stage-0 → Stage-1); the `_KONTAINER_SYNCPIPE` FD carries `extUp`
(Stage-0 → orchestrator) and `extDown` (orchestrator → Stage-0);
`sync_grandchild_pipe` carries `gDown` (Stage-0 → Stage-2) and `gUp`
(Stage-2 → Stage-0). -/
inductive Chan where
  | up10 | down01 | extUp | extDown | gDown | gUp
deriving DecidableEq, Repr

/-- Externally visible actions of a stage, in program order. -/
inductive Act where
  | unshareNs (f : Nat)
  | prctlDump (v : Nat)
  | setuidA (u : Nat)
  | setgidA (g : Nat)
  | sendTok (c : Chan) (v : Nat)
  | sendPid (c : Chan) (p : Int)
  | recvInt (c : Chan) (v : Nat)
  | recvPid (c : Chan) (p : Int)
  | recvShort (c : Chan)
  | cloneP (stage : Nat)
  | setsidA
  | setenvIsInit
  | killA (p : Int) (sig : Nat)
  | exitA (code : Nat)
deriving DecidableEq, Repr

/-- How a stage's code path ends: `exited c` for `exit(c)`/`_exit(c)`,
`returned` when control returns into the managed runtime. -/
inductive Outcome where
  | exited (code : Nat)
  | returned
deriving DecidableEq, Repr

/-- Model of `sane_kill` (bootstrap.c lines 89–93): `kill` only for positive pids. -/
def sane_kill (p : Int) (sig : Nat) : List Act :=
  if 0 < p then [.killA p sig] else []

/-- How the constructor leaves its entry dispatch: `ret g` = it returns
into the managed runtime with globals `g`; `toStage0 pipenum` = it falls
through into the stage-0 choreography. -/
inductive EntryOut where
  | ret (g : Globals)
  | toStage0 (pipenum : Int)
deriving DecidableEq, Repr

/-- The entry dispatch of `kontainer_bootstrap` (bootstrap.c lines
128–145): the `pipenum < 0` check first (NORMAL), then the
`_KONTAINER_IS_INIT` check (INIT).  The first component is the list of
externally visible actions performed before the dispatch decision: both
early-return branches reach their `return` without any I/O, fork or
stderr write, so it is empty. -/
def kontainer_bootstrap_entry (e : Env) : List Act × EntryOut :=
  if getenv_int e.initpipe < 0 then ([], .ret globals0)
  else if e.isInit.isSome then ([], .ret { globals0 with isInitProcess := true })
  else ([], .toStage0 (getenv_int e.initpipe))

/-- Number of read attempts a trace makes on channel `c`. -/
def recvCount (c : Chan) (t : List Act) : Nat :=
  (t.filter fun a =>
    match a with
    | .recvInt c' _ => c' = c
    | .recvPid c' _ => c' = c
    | .recvShort c' => c' = c
    | _ => false).length

/-- The unshare calls a trace performs, in order. -/
def unsharesOf (t : List Act) : List Nat :=
  t.filterMap fun a =>
    match a with
    | .unshareNs f => some f
    | _ => none

/-- pid payload writes a trace performs, in order. -/
def sendPidsOf (t : List Act) : List (Chan × Int) :=
  t.filterMap fun a =>
    match a with
    | .sendPid c p => some (c, p)
    | _ => none

/-! ### Stage-1 (bootstrap.c lines 363–587) -/

/-- Syscall results for one Stage-1 run.  `rAck` is what the blocking read
of the mapping ack returns: `none` for a short read, `some v` for a full
read of value `v`. -/
structure S1In where
  uUser : Bool
  prctl1 : Bool
  wPls : Bool
  rAck : Option Nat
  prctl0 : Bool
  suid : Bool
  sgid : Bool
  uNs : Bool
  uNet : Bool
  uUts : Bool
  uIpc : Bool
  uPid : Bool
  cloneOk : Bool
  wPid2 : Bool
deriving DecidableEq, Repr

/-- All syscalls succeed and the expected ack token arrives. -/
def allOk1 : S1In :=
  { uUser := true, prctl1 := true, wPls := true, rAck := some SYNC_USERMAP_ACK,
    prctl0 := true, suid := true, sgid := true, uNs := true, uNet := true,
    uUts := true, uIpc := true, uPid := true, cloneOk := true, wPid2 := true }

/-- The `CLONE_NEWUSER` branch of Stage-1 (lines 382–437): unshare the
user namespace, become dumpable, request the uid/gid mapping, wait for
the ack, drop dumpable, `setuid(0)`, `setgid(0)`.  Result: actions done
so far and whether the branch completed (`false` = the next action is
`_exit(1)`). -/
def s1UserPhase (flags : Nat) (i : S1In) : List Act × Bool :=
  if flags &&& CLONE_NEWUSER = 0 then ([], true)
  else if i.uUser = false then ([.unshareNs CLONE_NEWUSER], false)
  else if i.prctl1 = false then ([.unshareNs CLONE_NEWUSER, .prctlDump 1], false)
  else if i.wPls = false then
    ([.unshareNs CLONE_NEWUSER, .prctlDump 1, .sendTok .up10 SYNC_USERMAP_PLS], false)
  else
    match i.rAck with
    | none =>
      ([.unshareNs CLONE_NEWUSER, .prctlDump 1, .sendTok .up10 SYNC_USERMAP_PLS,
        .recvShort .down01], false)
    | some v =>
      if v ≠ SYNC_USERMAP_ACK then
        ([.unshareNs CLONE_NEWUSER, .prctlDump 1, .sendTok .up10 SYNC_USERMAP_PLS,
          .recvInt .down01 v], false)
      else if i.prctl0 = false then
        ([.unshareNs CLONE_NEWUSER, .prctlDump 1, .sendTok .up10 SYNC_USERMAP_PLS,
          .recvInt .down01 v, .prctlDump 0], false)
      else if i.suid = false then
        ([.unshareNs CLONE_NEWUSER, .prctlDump 1, .sendTok .up10 SYNC_USERMAP_PLS,
          .recvInt .down01 v, .prctlDump 0, .setuidA 0], false)
      else if i.sgid = false then
        ([.unshareNs CLONE_NEWUSER, .prctlDump 1, .sendTok .up10 SYNC_USERMAP_PLS,
          .recvInt .down01 v, .prctlDump 0, .setuidA 0, .setgidA 0], false)
      else
        ([.unshareNs CLONE_NEWUSER, .prctlDump 1, .sendTok .up10 SYNC_USERMAP_PLS,
          .recvInt .down01 v, .prctlDump 0, .setuidA 0, .setgidA 0], true)

/-- One guarded `if (config.clone_flags & F) { if (unshare(F) < 0) _exit(1); }`
block, then the rest: the shape of Stage-1's lines 441–487. -/
def runUnshares : List (Bool × Bool × Nat) → List Act × Bool
  | [] => ([], true)
  | (cond, ok, f) :: rest =>
    if cond then
      if ok then
        let r := runUnshares rest
        (.unshareNs f :: r.1, r.2)
      else ([.unshareNs f], false)
    else runUnshares rest

/-- Stage-1's mount/net/uts/ipc/pid unshare sequence (lines 441–487), in
the program order of the five `if` blocks, PID last. -/
def s1NsPhase (flags : Nat) (i : S1In) : List Act × Bool :=
  runUnshares
    [(flags &&& CLONE_NEWNS ≠ 0, i.uNs, CLONE_NEWNS),
     (flags &&& CLONE_NEWNET ≠ 0, i.uNet, CLONE_NEWNET),
     (flags &&& CLONE_NEWUTS ≠ 0, i.uUts, CLONE_NEWUTS),
     (flags &&& CLONE_NEWIPC ≠ 0, i.uIpc, CLONE_NEWIPC),
     (flags &&& CLONE_NEWPID ≠ 0, i.uPid, CLONE_NEWPID)]

/-- Stage-1's tail (lines 494–587): clone Stage-2 as a sibling, send its
PID up to Stage-0, `_exit(0)`.  `pid2` is the pid `clone` returned. -/
def s1SpawnPhase (pid2 : Int) (i : S1In) : List Act × Outcome :=
  if i.cloneOk = false then ([.cloneP 2, .exitA 1], .exited 1)
  else if i.wPid2 = false then ([.cloneP 2, .sendPid .up10 pid2, .exitA 1], .exited 1)
  else ([.cloneP 2, .sendPid .up10 pid2, .exitA 0], .exited 0)

/-- The whole Stage-1 code path (the `JUMP_STAGE1` case of the outer
`switch`), as the parent of Stage-2. -/
def stage1Run (flags : Nat) (pid2 : Int) (i : S1In) : List Act × Outcome :=
  let u := s1UserPhase flags i
  if u.2 = false then (u.1 ++ [.exitA 1], .exited 1)
  else
    let ns := s1NsPhase flags i
    if ns.2 = false then (u.1 ++ ns.1 ++ [.exitA 1], .exited 1)
    else
      let sp := s1SpawnPhase pid2 i
      (u.1 ++ ns.1 ++ sp.1, sp.2)

/-! ### Stage-2 (bootstrap.c lines 510–562, the `JUMP_STAGE2` case) -/

structure S2In where
  rGrand : Option Nat
  setsidOk : Bool
  wFinish : Bool
  setenvOk : Bool
deriving DecidableEq, Repr

def allOk2 : S2In :=
  { rGrand := some SYNC_GRANDCHILD, setsidOk := true, wFinish := true, setenvOk := true }

/-- Stage-2: wait for `SYNC_GRANDCHILD`, `setsid`, send
`SYNC_CHILD_FINISH`, set `_KONTAINER_IS_INIT`, set `is_init_process = 1`
and return into the managed runtime.  `g` is the globals snapshot Stage-2
inherited when it was cloned; only `is_init_process` is ever written. -/
def stage2Run (i : S2In) (g : Globals) : List Act × Outcome × Globals :=
  match i.rGrand with
  | none => ([.recvShort .gDown, .exitA 1], .exited 1, g)
  | some v =>
    if v ≠ SYNC_GRANDCHILD then ([.recvInt .gDown v, .exitA 1], .exited 1, g)
    else if i.setsidOk = false then ([.recvInt .gDown v, .setsidA, .exitA 1], .exited 1, g)
    else if i.wFinish = false then
      ([.recvInt .gDown v, .setsidA, .sendTok .gUp SYNC_CHILD_FINISH, .exitA 1], .exited 1, g)
    else if i.setenvOk = false then
      ([.recvInt .gDown v, .setsidA, .sendTok .gUp SYNC_CHILD_FINISH, .setenvIsInit,
        .exitA 1], .exited 1, g)
    else
      ([.recvInt .gDown v, .setsidA, .sendTok .gUp SYNC_CHILD_FINISH, .setenvIsInit],
       .returned, { g with isInitProcess := true })

/-! ### Stage-0 (bootstrap.c lines 194–361, the `case 0` branch) -/

/-- Syscall results for one Stage-0 run, in program order: clone of
Stage-1, the uid/gid-mapping relay, the Stage-2 pid report, the
grandchild sync. -/
structure S0In where
  cloneOk : Bool
  rPls : Option Nat
  wExtPls : Bool
  wExtPid1 : Bool
  rExtAck : Option Nat
  wAck1 : Bool
  rPid2 : Option Int
  wExtPid2 : Bool
  wGrand : Bool
  rFinish : Option Nat
deriving DecidableEq, Repr

def allOk0 : S0In :=
  { cloneOk := true, rPls := some SYNC_USERMAP_PLS, wExtPls := true, wExtPid1 := true,
    rExtAck := some SYNC_USERMAP_ACK, wAck1 := true, rPid2 := some 1000,
    wExtPid2 := true, wGrand := true, rFinish := some SYNC_CHILD_FINISH }

/-- Stage-0's uid/gid mapping relay (lines 223–282), entered only when
`config.clone_flags & CLONE_NEWUSER`: read `USERMAP_PLS` from Stage-1,
forward it and Stage-1's pid to the orchestrator, read `USERMAP_ACK`
back, forward the ack to Stage-1.  Every failure `exit(1)`s. -/
def s0UserPhase (pid1 : Int) (i : S0In) : List Act × Bool :=
  match i.rPls with
  | none => ([.recvShort .up10], false)
  | some v =>
    if v ≠ SYNC_USERMAP_PLS then ([.recvInt .up10 v], false)
    else if i.wExtPls = false then
      ([.recvInt .up10 v, .sendTok .extUp SYNC_USERMAP_PLS], false)
    else if i.wExtPid1 = false then
      ([.recvInt .up10 v, .sendTok .extUp SYNC_USERMAP_PLS, .sendPid .extUp pid1], false)
    else
      match i.rExtAck with
      | none =>
        ([.recvInt .up10 v, .sendTok .extUp SYNC_USERMAP_PLS, .sendPid .extUp pid1,
          .recvShort .extDown], false)
      | some w =>
        if w ≠ SYNC_USERMAP_ACK then
          ([.recvInt .up10 v, .sendTok .extUp SYNC_USERMAP_PLS, .sendPid .extUp pid1,
            .recvInt .extDown w], false)
        else if i.wAck1 = false then
          ([.recvInt .up10 v, .sendTok .extUp SYNC_USERMAP_PLS, .sendPid .extUp pid1,
            .recvInt .extDown w, .sendTok .down01 SYNC_USERMAP_ACK], false)
        else
          ([.recvInt .up10 v, .sendTok .extUp SYNC_USERMAP_PLS, .sendPid .extUp pid1,
            .recvInt .extDown w, .sendTok .down01 SYNC_USERMAP_ACK], true)

/-- Stage-0 from the Stage-2 pid report onwards (lines 284–361): read the
pid from Stage-1, store it in `init_pid`, forward it to the orchestrator,
send `SYNC_GRANDCHILD`, read `SYNC_CHILD_FINISH`, `_exit(0)`.  Every
failure after the pid is known runs `sane_kill(stage2_pid, SIGKILL)` and
`exit(1)`.  The `Int` result is the final value of `init_pid`. -/
def s0Tail (i : S0In) : List Act × Outcome × Int :=
  match i.rPid2 with
  | none => ([.recvShort .up10, .exitA 1], .exited 1, -1)
  | some p =>
    if i.wExtPid2 = false then
      ([.recvPid .up10 p, .sendPid .extUp p] ++ sane_kill p SIGKILL ++ [.exitA 1],
       .exited 1, p)
    else if i.wGrand = false then
      ([.recvPid .up10 p, .sendPid .extUp p, .sendTok .gDown SYNC_GRANDCHILD] ++
        sane_kill p SIGKILL ++ [.exitA 1], .exited 1, p)
    else
      match i.rFinish with
      | none =>
        ([.recvPid .up10 p, .sendPid .extUp p, .sendTok .gDown SYNC_GRANDCHILD,
          .recvShort .gUp] ++ sane_kill p SIGKILL ++ [.exitA 1], .exited 1, p)
      | some w =>
        if w ≠ SYNC_CHILD_FINISH then
          ([.recvPid .up10 p, .sendPid .extUp p, .sendTok .gDown SYNC_GRANDCHILD,
            .recvInt .gUp w] ++ sane_kill p SIGKILL ++ [.exitA 1], .exited 1, p)
        else
          ([.recvPid .up10 p, .sendPid .extUp p, .sendTok .gDown SYNC_GRANDCHILD,
            .recvInt .gUp w, .exitA 0], .exited 0, p)

/-- The whole Stage-0 branch after config parse, syncpipe lookup and the
two socketpairs: clone Stage-1, optionally relay the uid/gid mapping,
then the Stage-2 pid and grandchild sync.  `pid1` is the pid `clone`
returned for Stage-1. -/
def stage0Run (flags : Nat) (pid1 : Int) (i : S0In) : List Act × Outcome × Int :=
  if i.cloneOk = false then ([.cloneP 1, .exitA 1], .exited 1, -1)
  else
    let u := if flags &&& CLONE_NEWUSER ≠ 0 then s0UserPhase pid1 i else ([], true)
    if u.2 = false then (.cloneP 1 :: u.1 ++ [.exitA 1], .exited 1, -1)
    else
      let t := s0Tail i
      (.cloneP 1 :: u.1 ++ t.1, t.2.1, t.2.2)

/-- The stage-0 preamble of `kontainer_bootstrap` (lines 147–207): parse
the config, look up `_KONTAINER_SYNCPIPE`, create the two socketpairs,
then enter the `setjmp` switch.  `parse` is the `nl_parse` result (a
bailing parse has already terminated the process), `sp1`/`sp2` the two
`socketpair` results. -/
def bootstrapStage0 (parse : NlResult) (syncfd : Int) (sp1 sp2 : Bool)
    (pid1 : Int) (i : S0In) : List Act × Outcome × Int :=
  match parse with
  | .exited c => ([], .exited c, -1)
  | .ret v cfg =>
    if v < 0 then ([], .exited 1, -1)
    else if syncfd < 0 then ([], .exited 1, -1)
    else if sp1 = false then ([], .exited 1, -1)
    else if sp2 = false then ([], .exited 1, -1)
    else stage0Run cfg.cloneFlags pid1 i

/-! ## The four-process sync protocol as a closed system (claim C1)

On the failure-free runs, each of Stage-0, Stage-1, Stage-2 and the
external orchestrator is a straight-line sequence of sends and blocking
receives on the six channels.  The system below executes the four
programs under an arbitrary scheduler: a send is always enabled and
appends to the channel's FIFO queue (stream socketpairs preserve order),
a receive is enabled only when the expected message is at the head of its
queue.  The trace records the messages in send order. -/

/-- Messages of the sync protocol, with the two pid payloads kept
symbolic (the pid of Stage-1 resp. Stage-2). -/
inductive SMsg where
  | pls | ack | grand | finish | pidS1 | pidS2
deriving DecidableEq, Repr

inductive Ev where
  | send (c : Chan) (m : SMsg)
  | recv (c : Chan) (m : SMsg)
deriving DecidableEq, Repr

/-- Stage-0's sends/receives (bootstrap.c lines 223–350), with the
uid/gid relay present exactly when `CLONE_NEWUSER` is configured. -/
def stage0Prog (u : Bool) : List Ev :=
  (if u then
    [.recv .up10 .pls, .send .extUp .pls, .send .extUp .pidS1,
     .recv .extDown .ack, .send .down01 .ack]
   else []) ++
  [.recv .up10 .pidS2, .send .extUp .pidS2, .send .gDown .grand, .recv .gUp .finish]

/-- Stage-1's sends/receives (lines 399–417 and 572–578). -/
def stage1Prog (u : Bool) : List Ev :=
  (if u then [.send .up10 .pls, .recv .down01 .ack] else []) ++ [.send .up10 .pidS2]

/-- Stage-2's sends/receives (lines 517–543). -/
def stage2Prog : List Ev :=
  [.recv .gDown .grand, .send .gUp .finish]

/-- Modelled from the spec: the external orchestrator (Create.kt, not
part of src/) receives the forwarded `USERMAP_PLS` and Stage-1's pid,
answers `USERMAP_ACK` after installing the maps, and finally receives
Stage-2's pid (spec §4.2 token sequences and §4.5 step 5–6). -/
def extProg (u : Bool) : List Ev :=
  (if u then [.recv .extUp .pls, .recv .extUp .pidS1, .send .extDown .ack] else []) ++
  [.recv .extUp .pidS2]

/-- A system state: the four programs' unconsumed suffixes, the six
channel queues, and the trace of messages sent so far. -/
structure SysState where
  p0 : List Ev
  p1 : List Ev
  p2 : List Ev
  pe : List Ev
  q10 : List SMsg
  q01 : List SMsg
  qeu : List SMsg
  qed : List SMsg
  qgd : List SMsg
  qgu : List SMsg
  tr : List (Chan × SMsg)
deriving DecidableEq, Repr

def qGet (s : SysState) (c : Chan) : List SMsg :=
  match c with
  | .up10 => s.q10
  | .down01 => s.q01
  | .extUp => s.qeu
  | .extDown => s.qed
  | .gDown => s.qgd
  | .gUp => s.qgu

def qSet (s : SysState) (c : Chan) (q : List SMsg) : SysState :=
  match c with
  | .up10 => { s with q10 := q }
  | .down01 => { s with q01 := q }
  | .extUp => { s with qeu := q }
  | .extDown => { s with qed := q }
  | .gDown => { s with qgd := q }
  | .gUp => { s with qgu := q }

def progOf (s : SysState) (i : Fin 4) : List Ev :=
  match i with
  | 0 => s.p0
  | 1 => s.p1
  | 2 => s.p2
  | 3 => s.pe

def setProg (s : SysState) (i : Fin 4) (l : List Ev) : SysState :=
  match i with
  | 0 => { s with p0 := l }
  | 1 => { s with p1 := l }
  | 2 => { s with p2 := l }
  | 3 => { s with pe := l }

/-- Let process `i` execute its next event, if it is enabled. -/
def stepProc (s : SysState) (i : Fin 4) : Option SysState :=
  match progOf s i with
  | [] => none
  | .send c m :: rest =>
    let s1 := setProg s i rest
    let s2 := qSet s1 c (qGet s1 c ++ [m])
    some { s2 with tr := s2.tr ++ [(c, m)] }
  | .recv c m :: rest =>
    match qGet s c with
    | [] => none
    | m' :: q' => if m' = m then some (qSet (setProg s i rest) c q') else none

/-- All states reachable in one scheduler step. -/
def sysStep (s : SysState) : List SysState :=
  (List.finRange 4).filterMap (stepProc s)

def sysInit (u : Bool) : SysState :=
  { p0 := stage0Prog u, p1 := stage1Prog u, p2 := stage2Prog, pe := extProg u,
    q10 := [], q01 := [], qeu := [], qed := [], qgd := [], qgu := [], tr := [] }

def addNew (acc : List SysState) (l : List SysState) : List SysState :=
  l.foldl (fun a t => if t ∈ a then a else a ++ [t]) acc

/-- Fuelled breadth-first closure of `sysStep`. -/
def sysExplore : Nat → List SysState → List SysState
  | 0, acc => acc
  | n + 1, acc => sysExplore n (addNew acc (acc.flatMap sysStep))

def sysReachList (u : Bool) : List SysState := sysExplore 24 [sysInit u]

/-- Every state reachable from `s` under some scheduler. -/
inductive SysReach (s : SysState) : SysState → Prop where
  | refl : SysReach s s
  | step {t t' : SysState} : SysReach s t → t' ∈ sysStep t → SysReach s t'

/-- The claimed message sequence, with and without a user namespace. -/
def c1Trace : Bool → List (Chan × SMsg)
  | true =>
    [(.up10, .pls), (.extUp, .pls), (.extUp, .pidS1), (.extDown, .ack),
     (.down01, .ack), (.up10, .pidS2), (.extUp, .pidS2), (.gDown, .grand),
     (.gUp, .finish)]
  | false =>
    [(.up10, .pidS2), (.extUp, .pidS2), (.gDown, .grand), (.gUp, .finish)]

/-! ## Claim theorems: parser and role dispatch -/

/-- C10: `nl_parse` never returns a negative value to its caller.  Every
failure path (short header read, wrong message type, allocation failure,
short payload read) goes through `bail`, which terminates the process
with exit status 1 from inside the parser; every path that returns to the
caller returns 0, so the caller's `nl_parse(...) < 0` check can never
fire. -/
theorem claim_C10 (hdr : Option NlMsgHdr) (avail : List Nat) (mallocOk : Bool) :
    nl_parse hdr avail mallocOk = .exited 1 ∨
      ∃ cfg, nl_parse hdr avail mallocOk = .ret 0 cfg := by
  cases hdr with
  | none => exact Or.inl rfl
  | some h =>
    simp only [nl_parse]
    split_ifs <;> simp

def c4Hdr : NlMsgHdr :=
  { nlmsgLen := 20, nlmsgType := 62000, nlmsgFlags := 0, nlmsgSeq := 0, nlmsgPid := 0 }

/-- C4 fails on the code: for the 4-byte payload `[2,0,0,0]` the first
attribute has `nla_len = 2 < NLA_HDRLEN`, the attribute loop takes the
malformed-attribute `break` (second component `true`), yet `nl_parse`
returns 0 — a success — and the bootstrap carries on; it does not abort. -/
theorem claim_C4_cex :
    (parseAttrs [2, 0, 0, 0] nlConfig0).2 = true ∧
    nl_parse (some c4Hdr) [2, 0, 0, 0] true = .ret 0 nlConfig0 := by
  constructor
  · simp [parseAttrs, le16, NLA_HDRLEN]
  · simp [nl_parse, c4Hdr, nlPayloadSize, NLMSG_HDRLEN, INIT_MSG, parseAttrs, le16,
      NLA_HDRLEN]

/-- C4 (amended): an attribute whose `nla_len` underflows the 4-byte
header or overruns the payload makes the attribute loop stop with a
diagnostic, ignoring it and everything after it; already-parsed
attributes are kept and `nl_parse` still returns 0, so the bootstrap
continues instead of aborting. -/
theorem claim_C4 (h : NlMsgHdr) (avail : List Nat)
    (htype : h.nlmsgType = INIT_MSG)
    (hsz : nlPayloadSize h ≠ 0)
    (hav : nlPayloadSize h ≤ avail.length)
    (hmal : (parseAttrs (avail.take (nlPayloadSize h)) nlConfig0).2 = true) :
    nl_parse (some h) avail true =
      .ret 0 (parseAttrs (avail.take (nlPayloadSize h)) nlConfig0).1 := by
  simp only [nl_parse, htype, ne_eq, not_true_eq_false, if_false, ite_false]
  rw [if_neg hsz, if_neg (by simp), if_neg (by omega)]

/-- Witness for C4 at the concrete malformed payload `[2,0,0,0]`. -/
theorem claim_C4_witness :
    nl_parse (some c4Hdr) [2, 0, 0, 0] true =
      .ret 0 (parseAttrs (([2, 0, 0, 0] : List Nat).take (nlPayloadSize c4Hdr)) nlConfig0).1 :=
  claim_C4 c4Hdr [2, 0, 0, 0] (by decide) (by decide) (by decide)
    (by simp [nlPayloadSize, c4Hdr, NLMSG_HDRLEN, parseAttrs, le16, NLA_HDRLEN])

def c3Env : Env := { initpipe := some "abc", isInit := none, syncpipe := none }

/-- C3 is the documented intent, but the code diverges: `getenv_int` is
documented to return −1 for an invalid value, yet it is `atoi`, which
yields 0 on a non-integer string such as `"abc"`.  The resulting
`pipenum = 0` passes the `pipenum < 0` NORMAL check, so the bootstrap
does *not* return silently: it proceeds into the stage-0 machinery
(reading FD 0 as the init pipe).  Only the unset case behaves as
claimed. -/
theorem claim_C3 :
    getenv_int (some "abc") = 0 ∧
    kontainer_bootstrap_entry c3Env = ([], .toStage0 0) ∧
    getenv_int none = -1 ∧
    kontainer_bootstrap_entry { initpipe := none, isInit := none, syncpipe := none } =
      ([], .ret globals0) := by
  refine ⟨?_, ?_, rfl, rfl⟩ <;> decide

def c7Env : Env := { initpipe := some "-1", isInit := some "1", syncpipe := none }

/-- C7 is quantified over every value of `_KONTAINER_INITPIPE`, but with
`_KONTAINER_INITPIPE="-1"` (set) and `_KONTAINER_IS_INIT="1"` (set) the
`pipenum < 0` NORMAL check fires first: the constructor returns in the
NORMAL role with `is_init_process` still 0, not in the INIT role. -/
theorem claim_C7_cex :
    kontainer_bootstrap_entry c7Env = ([], .ret globals0) ∧
    kontainer_is_init_process globals0 = 0 ∧
    (kontainer_bootstrap_entry c7Env).2 ≠ .ret { globals0 with isInitProcess := true } := by
  refine ⟨?_, rfl, ?_⟩ <;> decide

/-- C7 (amended): whenever `_KONTAINER_INITPIPE` is set to a string whose
`atoi` value is nonnegative and `_KONTAINER_IS_INIT` is set, the
constructor returns immediately in the INIT role: no actions (no I/O on
the init pipe, no spawned process), `is_init_process` set so that
`kontainer_is_init_process()` returns 1, and `init_pid` still −1. -/
theorem claim_C7 (e : Env) (hp : 0 ≤ getenv_int e.initpipe)
    (hi : e.isInit.isSome = true) :
    kontainer_bootstrap_entry e = ([], .ret { globals0 with isInitProcess := true }) ∧
    kontainer_is_init_process { globals0 with isInitProcess := true } = 1 ∧
    kontainer_get_init_pid { globals0 with isInitProcess := true } = -1 := by
  refine ⟨?_, rfl, rfl⟩
  unfold kontainer_bootstrap_entry
  rw [if_neg (by omega), if_pos hi]

/-- Witness for C7 with `_KONTAINER_INITPIPE="3"` and `_KONTAINER_IS_INIT="1"`. -/
theorem claim_C7_witness :
    kontainer_bootstrap_entry { initpipe := some "3", isInit := some "1", syncpipe := none } =
      ([], .ret { globals0 with isInitProcess := true }) ∧
    kontainer_is_init_process { globals0 with isInitProcess := true } = 1 ∧
    kontainer_get_init_pid { globals0 with isInitProcess := true } = -1 :=
  claim_C7 { initpipe := some "3", isInit := some "1", syncpipe := none }
    (by decide) (by decide)

/-! ## Claim C1: the sync-message order -/

theorem sysReachList_closed (u : Bool) :
    ∀ s ∈ sysReachList u, ∀ t ∈ sysStep s, t ∈ sysReachList u := by
  cases u <;> decide

theorem sysInit_mem (u : Bool) : sysInit u ∈ sysReachList u := by
  cases u <;> decide

theorem sysReachList_inv (u : Bool) :
    ∀ s ∈ sysReachList u,
      s.tr.isPrefixOf (c1Trace u) = true ∧
      (sysStep s = [] → s.tr = c1Trace u ∧ s.p0 = [] ∧ s.p1 = [] ∧ s.p2 = [] ∧ s.pe = []) := by
  cases u <;> decide

theorem sysReach_mem {u : Bool} {s : SysState} (h : SysReach (sysInit u) s) :
    s ∈ sysReachList u := by
  induction h with
  | refl => exact sysInit_mem u
  | step _ ht ih => exact sysReachList_closed u _ ih _ ht

/-- C1: in every run of the failure-free sync protocol — under any
scheduler — the messages are sent in exactly the claimed order.  With
`CLONE_NEWUSER` (`u = true`): Stage-1 sends `USERMAP_PLS` to Stage-0;
Stage-0 sends `USERMAP_PLS` then Stage-1's pid on the external FD; the
external side sends `USERMAP_ACK`; Stage-0 forwards `USERMAP_ACK` to
Stage-1; Stage-1 sends Stage-2's pid; Stage-0 forwards it externally;
Stage-0 sends `GRANDCHILD` to Stage-2; Stage-2 sends `CHILD_FINISH`.
Without the USER bit the first five sends are omitted and the run starts
with Stage-1 sending Stage-2's pid.  Formally: every reachable state's
trace is a prefix of `c1Trace u`, and every completed (stuck) run has
sent exactly `c1Trace u` with all four processes finished. -/
theorem claim_C1 (u : Bool) (s : SysState) (h : SysReach (sysInit u) s) :
    s.tr.isPrefixOf (c1Trace u) = true ∧
    (sysStep s = [] → s.tr = c1Trace u ∧ s.p0 = [] ∧ s.p1 = [] ∧ s.p2 = [] ∧ s.pe = []) :=
  sysReachList_inv u s (sysReach_mem h)

/-- Witness for C1 at the initial state of the user-namespace variant. -/
theorem claim_C1_witness :
    (sysInit true).tr.isPrefixOf (c1Trace true) = true ∧
    (sysStep (sysInit true) = [] →
      (sysInit true).tr = c1Trace true ∧ (sysInit true).p0 = [] ∧ (sysInit true).p1 = [] ∧
      (sysInit true).p2 = [] ∧ (sysInit true).pe = []) :=
  claim_C1 true (sysInit true) SysReach.refl

/-! ## Helper lemmas about the stage traces -/

theorem unsharesOf_append (a b : List Act) :
    unsharesOf (a ++ b) = unsharesOf a ++ unsharesOf b := by
  simp [unsharesOf]

theorem sendPidsOf_append (a b : List Act) :
    sendPidsOf (a ++ b) = sendPidsOf a ++ sendPidsOf b := by
  simp [sendPidsOf]

theorem recvCount_append (c : Chan) (a b : List Act) :
    recvCount c (a ++ b) = recvCount c a + recvCount c b := by
  simp [recvCount]

theorem runUnshares_ok (l : List (Bool × Bool × Nat)) (h : ∀ x ∈ l, x.2.1 = true) :
    runUnshares l =
      (l.filterMap (fun x => if x.1 then some (Act.unshareNs x.2.2) else none), true) := by
  induction l with
  | nil => rfl
  | cons x rest ih =>
    obtain ⟨cond, ok, f⟩ := x
    have hok : ok = true := h (cond, ok, f) (by simp)
    have ih' := ih (fun y hy => h y (by simp [hy]))
    by_cases hc : cond = true <;> simp [runUnshares, hc, hok, ih']

theorem runUnshares_count (l : List (Bool × Bool × Nat)) :
    (unsharesOf (runUnshares l).1).length ≤ l.length := by
  induction l with
  | nil => simp [runUnshares, unsharesOf]
  | cons x rest ih =>
    obtain ⟨cond, ok, f⟩ := x
    by_cases hc : cond = true <;> by_cases ho : ok = true <;>
      simp [runUnshares, hc, ho, unsharesOf] <;>
      simp [unsharesOf] at ih <;> omega

theorem runUnshares_mem (l : List (Bool × Bool × Nat)) (a : Act)
    (h : a ∈ (runUnshares l).1) : ∃ x ∈ l, a = Act.unshareNs x.2.2 ∧ x.1 = true := by
  induction l with
  | nil => simp [runUnshares] at h
  | cons x rest ih =>
    obtain ⟨cond, ok, f⟩ := x
    by_cases hc : cond = true <;> by_cases ho : ok = true <;>
      simp [runUnshares, hc, ho] at h
    · rcases h with h | h
      · exact ⟨(cond, ok, f), by simp, by simp [h, hc]⟩
      · obtain ⟨y, hy, hp⟩ := ih h
        exact ⟨y, by simp [hy], hp⟩
    · exact ⟨(cond, ok, f), by simp, by simp [h, hc]⟩
    · obtain ⟨y, hy, hp⟩ := ih h
      exact ⟨y, by simp [hy], hp⟩
    · obtain ⟨y, hy, hp⟩ := ih h
      exact ⟨y, by simp [hy], hp⟩

theorem runUnshares_true_ok (l : List (Bool × Bool × Nat)) (f : Nat)
    (hb : (runUnshares l).2 = true) (h : Act.unshareNs f ∈ (runUnshares l).1) :
    ∃ c, (c, true, f) ∈ l := by
  induction l with
  | nil => simp [runUnshares] at h
  | cons x rest ih =>
    obtain ⟨cond, ok, f'⟩ := x
    by_cases hc : cond = true <;> by_cases ho : ok = true <;>
      simp [runUnshares, hc, ho] at h hb
    · rcases h with h | h
      · exact ⟨cond, by simp [h, ho]⟩
      · obtain ⟨c, hc'⟩ := ih hb h
        exact ⟨c, by simp [hc']⟩
    · obtain ⟨c, hc'⟩ := ih hb h
      exact ⟨c, by simp [hc']⟩
    · obtain ⟨c, hc'⟩ := ih hb h
      exact ⟨c, by simp [hc']⟩

theorem s1UserPhase_unshares (flags : Nat) (i : S1In) :
    unsharesOf (s1UserPhase flags i).1 =
      if flags &&& CLONE_NEWUSER = 0 then [] else [CLONE_NEWUSER] := by
  unfold s1UserPhase
  rcases hr : i.rAck with _ | v <;> simp only [hr] <;> split_ifs <;>
    simp_all [unsharesOf]

theorem s1UserPhase_sendPids (flags : Nat) (i : S1In) :
    sendPidsOf (s1UserPhase flags i).1 = [] := by
  unfold s1UserPhase
  rcases hr : i.rAck with _ | v <;> simp only [hr] <;> split_ifs <;>
    simp_all [sendPidsOf]

theorem s1UserPhase_recvCount (flags : Nat) (i : S1In) :
    recvCount .down01 (s1UserPhase flags i).1 ≤ 1 := by
  unfold s1UserPhase
  rcases hr : i.rAck with _ | v <;> simp only [hr] <;> split_ifs <;>
    simp [recvCount]

theorem s1UserPhase_true_iff (flags : Nat) (i : S1In)
    (hu : flags &&& CLONE_NEWUSER ≠ 0) :
    (s1UserPhase flags i).2 = true ↔
      (i.uUser = true ∧ i.prctl1 = true ∧ i.wPls = true ∧
       i.rAck = some SYNC_USERMAP_ACK ∧ i.prctl0 = true ∧ i.suid = true ∧
       i.sgid = true) := by
  unfold s1UserPhase
  rcases hr : i.rAck with _ | v <;> simp only [hr] <;> split_ifs <;> simp_all

theorem s1UserPhase_true_trace (flags : Nat) (i : S1In)
    (hu : flags &&& CLONE_NEWUSER ≠ 0) (h : (s1UserPhase flags i).2 = true) :
    (s1UserPhase flags i).1 =
      [.unshareNs CLONE_NEWUSER, .prctlDump 1, .sendTok .up10 SYNC_USERMAP_PLS,
       .recvInt .down01 SYNC_USERMAP_ACK, .prctlDump 0, .setuidA 0, .setgidA 0] := by
  unfold s1UserPhase at h ⊢
  rcases hr : i.rAck with _ | v <;> simp only [hr] at h ⊢ <;> split_ifs at h ⊢ <;>
    simp_all

theorem s1SpawnPhase_unshares (pid2 : Int) (i : S1In) :
    unsharesOf (s1SpawnPhase pid2 i).1 = [] := by
  unfold s1SpawnPhase
  split_ifs <;> simp [unsharesOf]

theorem s1SpawnPhase_recvCount (pid2 : Int) (i : S1In) (c : Chan) :
    recvCount c (s1SpawnPhase pid2 i).1 = 0 := by
  unfold s1SpawnPhase
  split_ifs <;> simp [recvCount]

theorem s1NsPhase_recvCount (flags : Nat) (i : S1In) (c : Chan) :
    recvCount c (s1NsPhase flags i).1 = 0 := by
  have : ∀ l : List (Bool × Bool × Nat), recvCount c (runUnshares l).1 = 0 := by
    intro l
    induction l with
    | nil => simp [runUnshares, recvCount]
    | cons x rest ih =>
      obtain ⟨cond, ok, f⟩ := x
      by_cases hc : cond = true <;> by_cases ho : ok = true <;>
        simp_all [runUnshares, recvCount]
  exact this _

theorem s1UserPhase_allOk (flags : Nat) :
    s1UserPhase flags allOk1 =
      (if flags &&& CLONE_NEWUSER = 0 then ([], true) else
        ([.unshareNs CLONE_NEWUSER, .prctlDump 1, .sendTok .up10 SYNC_USERMAP_PLS,
          .recvInt .down01 SYNC_USERMAP_ACK, .prctlDump 0, .setuidA 0, .setgidA 0],
         true)) := by
  by_cases hu : flags &&& CLONE_NEWUSER = 0 <;> simp [s1UserPhase, allOk1, hu]

theorem s1NsPhase_allOk (flags : Nat) :
    s1NsPhase flags allOk1 =
      ((if flags &&& CLONE_NEWNS = 0 then [] else [.unshareNs CLONE_NEWNS]) ++
       (if flags &&& CLONE_NEWNET = 0 then [] else [.unshareNs CLONE_NEWNET]) ++
       (if flags &&& CLONE_NEWUTS = 0 then [] else [.unshareNs CLONE_NEWUTS]) ++
       (if flags &&& CLONE_NEWIPC = 0 then [] else [.unshareNs CLONE_NEWIPC]) ++
       (if flags &&& CLONE_NEWPID = 0 then [] else [.unshareNs CLONE_NEWPID]), true) := by
  unfold s1NsPhase
  rw [runUnshares_ok _ (by simp [allOk1])]
  by_cases h2 : flags &&& CLONE_NEWNS = 0 <;> by_cases h3 : flags &&& CLONE_NEWNET = 0 <;>
    by_cases h4 : flags &&& CLONE_NEWUTS = 0 <;> by_cases h5 : flags &&& CLONE_NEWIPC = 0 <;>
    by_cases h6 : flags &&& CLONE_NEWPID = 0 <;> simp [h2, h3, h4, h5, h6]

theorem stage1Run_userfail (flags : Nat) (pid2 : Int) (i : S1In)
    (h : (s1UserPhase flags i).2 = false) :
    stage1Run flags pid2 i = ((s1UserPhase flags i).1 ++ [.exitA 1], .exited 1) := by
  simp [stage1Run, h]

theorem stage1Run_nsfail (flags : Nat) (pid2 : Int) (i : S1In)
    (hu : (s1UserPhase flags i).2 = true) (hn : (s1NsPhase flags i).2 = false) :
    stage1Run flags pid2 i =
      ((s1UserPhase flags i).1 ++ (s1NsPhase flags i).1 ++ [.exitA 1], .exited 1) := by
  simp [stage1Run, hu, hn]

theorem stage1Run_go (flags : Nat) (pid2 : Int) (i : S1In)
    (hu : (s1UserPhase flags i).2 = true) (hn : (s1NsPhase flags i).2 = true) :
    stage1Run flags pid2 i =
      ((s1UserPhase flags i).1 ++ (s1NsPhase flags i).1 ++ (s1SpawnPhase pid2 i).1,
       (s1SpawnPhase pid2 i).2) := by
  simp [stage1Run, hu, hn]

theorem mem_unsharesOf {f : Nat} {t : List Act} :
    f ∈ unsharesOf t ↔ Act.unshareNs f ∈ t := by
  simp only [unsharesOf, List.mem_filterMap]
  constructor
  · rintro ⟨a, ha, hg⟩
    cases a <;> simp_all
  · intro h
    exact ⟨_, h, rfl⟩

/-- Which `S1In` field governs the unshare of namespace flag `f`. -/
def unshareOkField (i : S1In) (f : Nat) : Bool :=
  if f = CLONE_NEWUSER then i.uUser
  else if f = CLONE_NEWNS then i.uNs
  else if f = CLONE_NEWNET then i.uNet
  else if f = CLONE_NEWUTS then i.uUts
  else if f = CLONE_NEWIPC then i.uIpc
  else if f = CLONE_NEWPID then i.uPid
  else true

theorem stage1Run_allOk (flags : Nat) (pid2 : Int) :
    stage1Run flags pid2 allOk1 =
      ((s1UserPhase flags allOk1).1 ++ (s1NsPhase flags allOk1).1 ++
        [.cloneP 2, .sendPid .up10 pid2, .exitA 0], .exited 0) := by
  rw [stage1Run_go flags pid2 allOk1 ?hu ?hn]
  · simp [s1SpawnPhase, allOk1]
  case hu =>
    rw [s1UserPhase_allOk]
    split_ifs <;> rfl
  case hn => rw [s1NsPhase_allOk]

/-- C2: over every `clone_flags` value, Stage-1 issues at most six
unshare calls; every unshare it issues is for a requested namespace kind
among {USER, MOUNT, NET, UTS, IPC, PID}; on the all-success run, a
requested USER unshare comes first (and only once), a requested PID
unshare comes last (and only once), and the PID unshare is the last
action before the Stage-2 clone, which is immediately followed by the
pid report and `_exit(0)`; every outcome is `_exit(0)` or `_exit(1)`, and
a run in which some issued unshare failed ends in `_exit(1)`. -/
theorem claim_C2 (flags : Nat) (pid2 : Int) :
    (∀ i, (unsharesOf (stage1Run flags pid2 i).1).length ≤ 6) ∧
    (∀ i f, f ∈ unsharesOf (stage1Run flags pid2 i).1 →
      flags &&& f ≠ 0 ∧
      f ∈ [CLONE_NEWUSER, CLONE_NEWNS, CLONE_NEWNET, CLONE_NEWUTS, CLONE_NEWIPC,
           CLONE_NEWPID]) ∧
    (flags &&& CLONE_NEWUSER ≠ 0 →
      (unsharesOf (stage1Run flags pid2 allOk1).1).head? = some CLONE_NEWUSER ∧
      (unsharesOf (stage1Run flags pid2 allOk1).1).count CLONE_NEWUSER = 1) ∧
    (flags &&& CLONE_NEWPID ≠ 0 →
      (unsharesOf (stage1Run flags pid2 allOk1).1).getLast? = some CLONE_NEWPID ∧
      (unsharesOf (stage1Run flags pid2 allOk1).1).count CLONE_NEWPID = 1) ∧
    (flags &&& CLONE_NEWPID ≠ 0 →
      (stage1Run flags pid2 allOk1).1.drop ((stage1Run flags pid2 allOk1).1.length - 4) =
        [.unshareNs CLONE_NEWPID, .cloneP 2, .sendPid .up10 pid2, .exitA 0]) ∧
    (∀ i, (stage1Run flags pid2 i).2 = .exited 0 ∨ (stage1Run flags pid2 i).2 = .exited 1) ∧
    (∀ i f, Act.unshareNs f ∈ (stage1Run flags pid2 i).1 → unshareOkField i f = false →
      (stage1Run flags pid2 i).2 = .exited 1) := by
  refine ⟨?_, ?_, ?_, ?_, ?_, ?_, ?_⟩
  · -- at most six unshares, on every run
    intro i
    have h1 : (unsharesOf (s1UserPhase flags i).1).length ≤ 1 := by
      rw [s1UserPhase_unshares]
      split_ifs <;> simp
    have h2 : (unsharesOf (s1NsPhase flags i).1).length ≤ 5 := by
      unfold s1NsPhase
      exact le_trans (runUnshares_count _) (by simp)
    have h0 : (unsharesOf [Act.exitA 1]).length = 0 := rfl
    have h3 : (unsharesOf (s1SpawnPhase pid2 i).1).length = 0 := by
      rw [s1SpawnPhase_unshares]
      rfl
    rcases hu2 : (s1UserPhase flags i).2 with _ | _
    · rw [stage1Run_userfail flags pid2 i hu2]
      simp only [unsharesOf_append, List.length_append]
      omega
    · rcases hn2 : (s1NsPhase flags i).2 with _ | _
      · rw [stage1Run_nsfail flags pid2 i hu2 hn2]
        simp only [unsharesOf_append, List.length_append]
        omega
      · rw [stage1Run_go flags pid2 i hu2 hn2]
        simp only [unsharesOf_append, List.length_append]
        omega
  · -- only requested kinds
    intro i f hmem
    have huser : ∀ hm : f ∈ unsharesOf (s1UserPhase flags i).1,
        flags &&& f ≠ 0 ∧ f ∈ [CLONE_NEWUSER, CLONE_NEWNS, CLONE_NEWNET, CLONE_NEWUTS,
          CLONE_NEWIPC, CLONE_NEWPID] := by
      intro hm
      rw [s1UserPhase_unshares] at hm
      split_ifs at hm with hb
      · simp at hm
      · simp at hm
        subst hm
        exact ⟨hb, by simp⟩
    have hns : ∀ hm : f ∈ unsharesOf (s1NsPhase flags i).1,
        flags &&& f ≠ 0 ∧ f ∈ [CLONE_NEWUSER, CLONE_NEWNS, CLONE_NEWNET, CLONE_NEWUTS,
          CLONE_NEWIPC, CLONE_NEWPID] := by
      intro hm
      rw [mem_unsharesOf] at hm
      unfold s1NsPhase at hm
      obtain ⟨x, hx, hax, hc⟩ := runUnshares_mem _ _ hm
      simp only [List.mem_cons, List.not_mem_nil, or_false] at hx
      rcases hx with hx | hx | hx | hx | hx <;> subst hx <;>
        simp_all
    have hx : f ∈ unsharesOf [Act.exitA 1] → False := by
      intro h
      simp [unsharesOf] at h
    have hsp : f ∈ unsharesOf (s1SpawnPhase pid2 i).1 → False := by
      intro h
      rw [s1SpawnPhase_unshares] at h
      simp at h
    rcases hu2 : (s1UserPhase flags i).2 with _ | _
    · rw [stage1Run_userfail flags pid2 i hu2] at hmem
      simp only [unsharesOf_append, List.mem_append] at hmem
      rcases hmem with hm | hm
      · exact huser hm
      · exact absurd hm hx
    · rcases hn2 : (s1NsPhase flags i).2 with _ | _
      · rw [stage1Run_nsfail flags pid2 i hu2 hn2] at hmem
        simp only [unsharesOf_append, List.mem_append] at hmem
        rcases hmem with (hm | hm) | hm
        · exact huser hm
        · exact hns hm
        · exact absurd hm hx
      · rw [stage1Run_go flags pid2 i hu2 hn2] at hmem
        simp only [unsharesOf_append, List.mem_append] at hmem
        rcases hmem with (hm | hm) | hm
        · exact huser hm
        · exact hns hm
        · exact absurd hm hsp
  · -- USER first and once
    intro hU
    rw [stage1Run_allOk, s1UserPhase_allOk, s1NsPhase_allOk]
    split_ifs <;>
      simp_all [unsharesOf, CLONE_NEWUSER, CLONE_NEWNS, CLONE_NEWNET, CLONE_NEWUTS,
        CLONE_NEWIPC, CLONE_NEWPID]
  · -- PID last and once
    intro hP
    rw [stage1Run_allOk, s1UserPhase_allOk, s1NsPhase_allOk]
    split_ifs <;>
      simp_all [unsharesOf, CLONE_NEWUSER, CLONE_NEWNS, CLONE_NEWNET, CLONE_NEWUTS,
        CLONE_NEWIPC, CLONE_NEWPID]
  · -- PID unshare is the last action before the Stage-2 clone
    intro hP
    rw [stage1Run_allOk, s1UserPhase_allOk, s1NsPhase_allOk]
    split_ifs <;> simp_all
  · -- every outcome is exit 0 or exit 1
    intro i
    rcases hu2 : (s1UserPhase flags i).2 with _ | _
    · rw [stage1Run_userfail flags pid2 i hu2]
      right
      rfl
    · rcases hn2 : (s1NsPhase flags i).2 with _ | _
      · rw [stage1Run_nsfail flags pid2 i hu2 hn2]
        right
        rfl
      · rw [stage1Run_go flags pid2 i hu2 hn2]
        unfold s1SpawnPhase
        split_ifs <;> simp
  · -- a failed unshare is fatal
    intro i f hmem hbad
    rcases hu2 : (s1UserPhase flags i).2 with _ | _
    · rw [stage1Run_userfail flags pid2 i hu2]
    · rcases hn2 : (s1NsPhase flags i).2 with _ | _
      · rw [stage1Run_nsfail flags pid2 i hu2 hn2]
      · exfalso
        rw [stage1Run_go flags pid2 i hu2 hn2] at hmem
        simp only [List.append_assoc, List.mem_append] at hmem
        rcases hmem with hm | hm | hm
        · have hf : f ∈ unsharesOf (s1UserPhase flags i).1 := mem_unsharesOf.mpr hm
          rw [s1UserPhase_unshares] at hf
          split_ifs at hf with hb
          · simp at hf
          · simp at hf
            subst hf
            have := (s1UserPhase_true_iff flags i hb).mp hu2
            simp [unshareOkField] at hbad
            simp_all
        · unfold s1NsPhase at hn2 hm
          obtain ⟨c, hc⟩ := runUnshares_true_ok _ f hn2 hm
          simp only [List.mem_cons, List.not_mem_nil, or_false, Prod.mk.injEq] at hc
          rcases hc with ⟨-, h2, rfl⟩ | ⟨-, h2, rfl⟩ | ⟨-, h2, rfl⟩ | ⟨-, h2, rfl⟩ |
            ⟨-, h2, rfl⟩ <;>
            simp_all [unshareOkField, CLONE_NEWUSER, CLONE_NEWNS, CLONE_NEWNET,
              CLONE_NEWUTS, CLONE_NEWIPC, CLONE_NEWPID]
        · have hf : f ∈ unsharesOf (s1SpawnPhase pid2 i).1 := mem_unsharesOf.mpr hm
          rw [s1SpawnPhase_unshares] at hf
          simp at hf

theorem stage1Run_outcome (flags : Nat) (pid2 : Int) (i : S1In) :
    (stage1Run flags pid2 i).2 = .exited 0 ∨ (stage1Run flags pid2 i).2 = .exited 1 := by
  rcases hu2 : (s1UserPhase flags i).2 with _ | _
  · rw [stage1Run_userfail flags pid2 i hu2]
    right
    rfl
  · rcases hn2 : (s1NsPhase flags i).2 with _ | _
    · rw [stage1Run_nsfail flags pid2 i hu2 hn2]
      right
      rfl
    · rw [stage1Run_go flags pid2 i hu2 hn2]
      unfold s1SpawnPhase
      split_ifs <;> simp

/-! ### Stage-0 helper lemmas -/

theorem s0UserPhase_true_iff (pid1 : Int) (i : S0In) :
    (s0UserPhase pid1 i).2 = true ↔
      (i.rPls = some SYNC_USERMAP_PLS ∧ i.wExtPls = true ∧ i.wExtPid1 = true ∧
       i.rExtAck = some SYNC_USERMAP_ACK ∧ i.wAck1 = true) := by
  unfold s0UserPhase
  rcases hp : i.rPls with _ | v
  · simp
  · simp only [hp]
    rcases ha : i.rExtAck with _ | w <;> simp only [ha] <;> split_ifs <;> simp_all

theorem s0UserPhase_no_recvPid (pid1 : Int) (i : S0In) (c : Chan) (p : Int) :
    Act.recvPid c p ∉ (s0UserPhase pid1 i).1 := by
  unfold s0UserPhase
  rcases hp : i.rPls with _ | v
  · simp
  · simp only [hp]
    rcases ha : i.rExtAck with _ | w <;> simp only [ha] <;> split_ifs <;> simp

theorem s0UserPhase_recvCount_up10 (pid1 : Int) (i : S0In) :
    recvCount .up10 (s0UserPhase pid1 i).1 ≤ 1 := by
  unfold s0UserPhase
  rcases hp : i.rPls with _ | v
  · simp [recvCount]
  · simp only [hp]
    rcases ha : i.rExtAck with _ | w <;> simp only [ha] <;> split_ifs <;> simp [recvCount]

theorem s0UserPhase_recvCount_extDown (pid1 : Int) (i : S0In) :
    recvCount .extDown (s0UserPhase pid1 i).1 ≤ 1 := by
  unfold s0UserPhase
  rcases hp : i.rPls with _ | v
  · simp [recvCount]
  · simp only [hp]
    rcases ha : i.rExtAck with _ | w <;> simp only [ha] <;> split_ifs <;> simp [recvCount]

theorem s0UserPhase_recvCount_gUp (pid1 : Int) (i : S0In) :
    recvCount .gUp (s0UserPhase pid1 i).1 = 0 := by
  unfold s0UserPhase
  rcases hp : i.rPls with _ | v
  · simp [recvCount]
  · simp only [hp]
    rcases ha : i.rExtAck with _ | w <;> simp only [ha] <;> split_ifs <;> simp [recvCount]

theorem sane_kill_recvCount (c : Chan) (p : Int) (sig : Nat) :
    recvCount c (sane_kill p sig) = 0 := by
  unfold sane_kill
  split_ifs <;> simp [recvCount]

theorem s0Tail_outcome (i : S0In) :
    (s0Tail i).2.1 = .exited 0 ∨ (s0Tail i).2.1 = .exited 1 := by
  unfold s0Tail
  rcases hq : i.rPid2 with _ | q
  · simp
  · rcases hf : i.rFinish with _ | w <;> simp only [hf] <;> split_ifs <;> simp

theorem s0Tail_exit0_iff (i : S0In) :
    (s0Tail i).2.1 = .exited 0 ↔
      ((∃ p, i.rPid2 = some p) ∧ i.wExtPid2 = true ∧ i.wGrand = true ∧
       i.rFinish = some SYNC_CHILD_FINISH) := by
  unfold s0Tail
  rcases hq : i.rPid2 with _ | q
  · simp
  · rcases hf : i.rFinish with _ | w <;> simp only [hf] <;> split_ifs <;> simp_all

theorem s0Tail_len (i : S0In) : 2 ≤ (s0Tail i).1.length := by
  unfold s0Tail sane_kill
  rcases hq : i.rPid2 with _ | q
  · simp
  · rcases hf : i.rFinish with _ | w <;> simp only [hf] <;> split_ifs <;>
      simp [sane_kill] <;> split_ifs <;> simp

theorem s0Tail_recvCount_up10 (i : S0In) :
    recvCount .up10 (s0Tail i).1 ≤ 1 := by
  unfold s0Tail sane_kill
  rcases hq : i.rPid2 with _ | q
  · simp [recvCount]
  · rcases hf : i.rFinish with _ | w <;> simp only [hf] <;> split_ifs <;>
      simp [recvCount_append, sane_kill_recvCount, recvCount]

theorem s0Tail_recvCount_extDown (i : S0In) :
    recvCount .extDown (s0Tail i).1 = 0 := by
  unfold s0Tail sane_kill
  rcases hq : i.rPid2 with _ | q
  · simp [recvCount]
  · rcases hf : i.rFinish with _ | w <;> simp only [hf] <;> split_ifs <;>
      simp [recvCount_append, sane_kill_recvCount, recvCount]

theorem s0Tail_recvCount_gUp (i : S0In) :
    recvCount .gUp (s0Tail i).1 ≤ 1 := by
  unfold s0Tail sane_kill
  rcases hq : i.rPid2 with _ | q
  · simp [recvCount]
  · rcases hf : i.rFinish with _ | w <;> simp only [hf] <;> split_ifs <;>
      simp [recvCount_append, sane_kill_recvCount, recvCount]

theorem s0Tail_kill (i : S0In) (p : Int) (hp : 0 < p)
    (hmem : Act.recvPid .up10 p ∈ (s0Tail i).1)
    (hfail : (s0Tail i).2.1 = .exited 1) :
    (s0Tail i).1.drop ((s0Tail i).1.length - 2) = [.killA p SIGKILL, .exitA 1] := by
  unfold s0Tail at hmem hfail ⊢
  rcases hq : i.rPid2 with _ | q
  · simp [hq] at hmem
  · simp only [hq] at hmem hfail ⊢
    rcases hf : i.rFinish with _ | w <;> simp only [hf] at hmem hfail ⊢ <;>
      split_ifs at hmem hfail ⊢ <;> simp_all [sane_kill]

theorem stage0Run_clonefail (flags : Nat) (pid1 : Int) (i : S0In)
    (h : i.cloneOk = false) :
    stage0Run flags pid1 i = ([.cloneP 1, .exitA 1], .exited 1, -1) := by
  simp [stage0Run, h]

theorem stage0Run_userfail (flags : Nat) (pid1 : Int) (i : S0In)
    (hc : i.cloneOk = true) (hb : flags &&& CLONE_NEWUSER ≠ 0)
    (h : (s0UserPhase pid1 i).2 = false) :
    stage0Run flags pid1 i =
      (.cloneP 1 :: ((s0UserPhase pid1 i).1 ++ [.exitA 1]), .exited 1, -1) := by
  simp [stage0Run, hc, hb, h]

theorem stage0Run_go (flags : Nat) (pid1 : Int) (i : S0In)
    (hc : i.cloneOk = true)
    (hu : (if flags &&& CLONE_NEWUSER ≠ 0 then s0UserPhase pid1 i else ([], true)).2 = true) :
    stage0Run flags pid1 i =
      (.cloneP 1 ::
        ((if flags &&& CLONE_NEWUSER ≠ 0 then s0UserPhase pid1 i else ([], true)).1 ++
          (s0Tail i).1),
       (s0Tail i).2.1, (s0Tail i).2.2) := by
  by_cases hb : flags &&& CLONE_NEWUSER ≠ 0 <;> simp_all [stage0Run]

theorem stage0Run_outcome (flags : Nat) (pid1 : Int) (i : S0In) :
    (stage0Run flags pid1 i).2.1 = .exited 0 ∨ (stage0Run flags pid1 i).2.1 = .exited 1 := by
  rcases hc : i.cloneOk with _ | _
  · rw [stage0Run_clonefail flags pid1 i hc]
    right
    rfl
  · rcases hu : (if flags &&& CLONE_NEWUSER ≠ 0 then s0UserPhase pid1 i else ([], true)).2
      with _ | _
    · by_cases hb : flags &&& CLONE_NEWUSER ≠ 0
      · rw [stage0Run_userfail flags pid1 i hc hb (by simpa [hb] using hu)]
        right
        rfl
      · simp [hb] at hu
    · rw [stage0Run_go flags pid1 i hc hu]
      exact s0Tail_outcome i

/-! ## Claims C5 and C6 -/

/-- C5 fails on the code: on the all-success run of the `CLONE_NEWUSER`
branch, Stage-1 performs unshare(USER); dumpable = 1; send `USERMAP_PLS`;
receive `USERMAP_ACK`; dumpable = 0; setuid(0); setgid(0) — it never
sends its own PID on the upward sync channel (there is no pid write in
the branch at all): Stage-0 learns Stage-1's pid from `clone`'s return
value instead. -/
theorem claim_C5_cex :
    (s1UserPhase CLONE_NEWUSER allOk1).1 =
      [.unshareNs CLONE_NEWUSER, .prctlDump 1, .sendTok .up10 SYNC_USERMAP_PLS,
       .recvInt .down01 SYNC_USERMAP_ACK, .prctlDump 0, .setuidA 0, .setgidA 0] ∧
    sendPidsOf (s1UserPhase CLONE_NEWUSER allOk1).1 = [] := by
  constructor <;> decide

/-- C5 (amended): when `CLONE_NEWUSER` is set, the Stage-1 user branch
performs exactly, in this order: unshare of the user namespace; set
dumpable to 1; send `USERMAP_PLS` (the token only — Stage-1 never sends
its own PID; Stage-0 already knows it from `clone`); receive
`USERMAP_ACK`; set dumpable back to 0; `setuid(0)`; `setgid(0)`.  The
branch completes exactly when each of these steps succeeds and the ack
token is the expected one; any failure makes the stage `_exit(1)`; the
ack is read at most once (no retry). -/
theorem claim_C5 (flags : Nat) (pid2 : Int) (i : S1In)
    (hu : flags &&& CLONE_NEWUSER ≠ 0) :
    ((s1UserPhase flags i).2 = true ↔
      (i.uUser = true ∧ i.prctl1 = true ∧ i.wPls = true ∧
       i.rAck = some SYNC_USERMAP_ACK ∧ i.prctl0 = true ∧ i.suid = true ∧
       i.sgid = true)) ∧
    ((s1UserPhase flags i).2 = true →
      (s1UserPhase flags i).1 =
        [.unshareNs CLONE_NEWUSER, .prctlDump 1, .sendTok .up10 SYNC_USERMAP_PLS,
         .recvInt .down01 SYNC_USERMAP_ACK, .prctlDump 0, .setuidA 0, .setgidA 0]) ∧
    ((s1UserPhase flags i).2 = false → (stage1Run flags pid2 i).2 = .exited 1) ∧
    sendPidsOf (s1UserPhase flags i).1 = [] ∧
    recvCount .down01 (s1UserPhase flags i).1 ≤ 1 :=
  ⟨s1UserPhase_true_iff flags i hu,
   fun h => s1UserPhase_true_trace flags i hu h,
   fun h => by rw [stage1Run_userfail flags pid2 i h],
   s1UserPhase_sendPids flags i,
   s1UserPhase_recvCount flags i⟩

/-- Witness for C5 at `clone_flags = CLONE_NEWUSER` with every syscall
succeeding. -/
theorem claim_C5_witness :
    sendPidsOf (s1UserPhase CLONE_NEWUSER allOk1).1 = [] ∧
    recvCount .down01 (s1UserPhase CLONE_NEWUSER allOk1).1 ≤ 1 :=
  ⟨(claim_C5 CLONE_NEWUSER 7 allOk1 (by decide)).2.2.2.1,
   (claim_C5 CLONE_NEWUSER 7 allOk1 (by decide)).2.2.2.2⟩

theorem drop_last_two (a b : List Act) (h : 2 ≤ b.length) :
    (a ++ b).drop ((a ++ b).length - 2) = b.drop (b.length - 2) := by
  have h2 : (a ++ b).length - 2 = a.length + (b.length - 2) := by
    simp only [List.length_append]
    omega
  rw [h2, List.drop_append]

/-- C6: on every Stage-0 run that received Stage-2's pid `p > 0` from
Stage-1 and nevertheless fails (`exit(1)`), the last two actions are
`kill(p, SIGKILL)` followed by the `exit(1)` itself: no failure path of
Stage-0 that is reached after Stage-2 exists terminates without first
SIGKILLing Stage-2. -/
theorem claim_C6 (flags : Nat) (pid1 : Int) (i : S0In) (p : Int)
    (hmem : Act.recvPid .up10 p ∈ (stage0Run flags pid1 i).1)
    (hp : 0 < p)
    (hfail : (stage0Run flags pid1 i).2.1 = .exited 1) :
    (stage0Run flags pid1 i).1.drop ((stage0Run flags pid1 i).1.length - 2) =
      [.killA p SIGKILL, .exitA 1] := by
  rcases hc : i.cloneOk with _ | _
  · rw [stage0Run_clonefail flags pid1 i hc] at hmem
    simp at hmem
  · rcases hu : (if flags &&& CLONE_NEWUSER ≠ 0 then s0UserPhase pid1 i else ([], true)).2
      with _ | _
    · by_cases hb : flags &&& CLONE_NEWUSER ≠ 0
      · rw [stage0Run_userfail flags pid1 i hc hb (by simpa [hb] using hu)] at hmem
        simp only [List.mem_cons, List.mem_append, List.mem_singleton] at hmem
        rcases hmem with hm | hm | hm
        · exact absurd hm (by simp)
        · exact absurd hm (s0UserPhase_no_recvPid pid1 i _ p)
        · exact absurd hm (by simp)
      · simp [hb] at hu
    · rw [stage0Run_go flags pid1 i hc hu] at hmem hfail ⊢
      have hmem' : Act.recvPid .up10 p ∈ (s0Tail i).1 := by
        simp only [List.mem_cons, List.mem_append] at hmem
        rcases hmem with hm | hm | hm
        · exact absurd hm (by simp)
        · exfalso
          by_cases hb : flags &&& CLONE_NEWUSER ≠ 0
          · rw [if_pos hb] at hm
            exact s0UserPhase_no_recvPid pid1 i _ p hm
          · rw [if_neg hb] at hm
            simp at hm
        · exact hm
      have hkill := s0Tail_kill i p hp hmem' hfail
      have hcons :
          (Act.cloneP 1 ::
            ((if flags &&& CLONE_NEWUSER ≠ 0 then s0UserPhase pid1 i else ([], true)).1 ++
              (s0Tail i).1)) =
          (Act.cloneP 1 ::
            (if flags &&& CLONE_NEWUSER ≠ 0 then s0UserPhase pid1 i else ([], true)).1) ++
            (s0Tail i).1 := by
        simp
      rw [hcons, drop_last_two _ _ (s0Tail_len i), hkill]

/-- Witness for C6: the run in which everything up to the grandchild sync
succeeds but the final token is wrong. -/
theorem claim_C6_witness :
    (stage0Run 0 5 { allOk0 with rFinish := some 9 }).1.drop
        ((stage0Run 0 5 { allOk0 with rFinish := some 9 }).1.length - 2) =
      [.killA 1000 SIGKILL, .exitA 1] :=
  claim_C6 0 5 { allOk0 with rFinish := some 9 } 1000 (by decide) (by decide) (by decide)

theorem recvCount_cons_cloneP (c : Chan) (n : Nat) (l : List Act) :
    recvCount c (Act.cloneP n :: l) = recvCount c l := by
  simp [recvCount]

theorem recvCount_exitA (c : Chan) (n : Nat) : recvCount c [Act.exitA n] = 0 := rfl

theorem stage2Run_initPid (i : S2In) (g : Globals) :
    (stage2Run i g).2.2.initPid = g.initPid := by
  unfold stage2Run
  rcases hg : i.rGrand with _ | v <;> simp only [hg] <;> split_ifs <;> simp

theorem stage0Run_recvCount_le (flags : Nat) (pid1 : Int) (i0 : S0In) (c : Chan)
    (a b : Nat)
    (hph : recvCount c (s0UserPhase pid1 i0).1 ≤ a)
    (htl : recvCount c (s0Tail i0).1 ≤ b) :
    recvCount c (stage0Run flags pid1 i0).1 ≤ a + b := by
  rcases hc : i0.cloneOk with _ | _
  · rw [stage0Run_clonefail flags pid1 i0 hc]
    show recvCount c [Act.cloneP 1, Act.exitA 1] ≤ a + b
    have h0 : recvCount c [Act.cloneP 1, Act.exitA 1] = 0 := rfl
    omega
  · rcases hu : (if flags &&& CLONE_NEWUSER ≠ 0 then s0UserPhase pid1 i0 else ([], true)).2
      with _ | _
    · by_cases hb : flags &&& CLONE_NEWUSER ≠ 0
      · rw [stage0Run_userfail flags pid1 i0 hc hb (by simpa [hb] using hu)]
        rw [recvCount_cons_cloneP, recvCount_append, recvCount_exitA]
        omega
      · simp [hb] at hu
    · rw [stage0Run_go flags pid1 i0 hc hu]
      rw [recvCount_cons_cloneP, recvCount_append]
      have h1 : recvCount c
          (if flags &&& CLONE_NEWUSER ≠ 0 then s0UserPhase pid1 i0 else ([], true)).1 ≤ a := by
        split_ifs
        · exact hph
        · simp [recvCount]
      omega

theorem stage2Run_recvCount (i : S2In) (g : Globals) :
    recvCount .gDown (stage2Run i g).1 ≤ 1 := by
  unfold stage2Run
  rcases hg : i.rGrand with _ | v
  · simp [hg, recvCount]
  · simp only [hg]
    split_ifs <;> simp [recvCount]

/-- C8: at every token-receive step of the sync protocol, in every stage,
a short read or a token different from the one expected at that position
makes the receiving process exit with status 1 — Stage-0's reads of
`USERMAP_PLS`, `USERMAP_ACK` and `CHILD_FINISH`, Stage-1's read of
`USERMAP_ACK`, Stage-2's read of `GRANDCHILD` — and no stage re-reads a
token: each stage performs at most as many reads on each of its channels
as the protocol has slots there (Stage-0: two on the Stage-1 pipe, one on
the external FD, one on the grandchild pipe; Stage-1 and Stage-2: one
each). -/
theorem claim_C8 (flags : Nat) (pid1 pid2 : Int) (i0 : S0In) (i1 : S1In) (i2 : S2In)
    (g : Globals) :
    (flags &&& CLONE_NEWUSER ≠ 0 → i0.cloneOk = true →
      (i0.rPls = none ∨ ∃ v, i0.rPls = some v ∧ v ≠ SYNC_USERMAP_PLS) →
      (stage0Run flags pid1 i0).2.1 = .exited 1) ∧
    (flags &&& CLONE_NEWUSER ≠ 0 → i0.cloneOk = true →
      (i0.rExtAck = none ∨ ∃ v, i0.rExtAck = some v ∧ v ≠ SYNC_USERMAP_ACK) →
      (stage0Run flags pid1 i0).2.1 = .exited 1) ∧
    (i0.cloneOk = true →
      (i0.rFinish = none ∨ ∃ v, i0.rFinish = some v ∧ v ≠ SYNC_CHILD_FINISH) →
      (stage0Run flags pid1 i0).2.1 = .exited 1) ∧
    (flags &&& CLONE_NEWUSER ≠ 0 →
      (i1.rAck = none ∨ ∃ v, i1.rAck = some v ∧ v ≠ SYNC_USERMAP_ACK) →
      (stage1Run flags pid2 i1).2 = .exited 1) ∧
    ((i2.rGrand = none ∨ ∃ v, i2.rGrand = some v ∧ v ≠ SYNC_GRANDCHILD) →
      (stage2Run i2 g).2.1 = .exited 1) ∧
    recvCount .up10 (stage0Run flags pid1 i0).1 ≤ 2 ∧
    recvCount .extDown (stage0Run flags pid1 i0).1 ≤ 1 ∧
    recvCount .gUp (stage0Run flags pid1 i0).1 ≤ 1 ∧
    recvCount .down01 (stage1Run flags pid2 i1).1 ≤ 1 ∧
    recvCount .gDown (stage2Run i2 g).1 ≤ 1 := by
  refine ⟨?_, ?_, ?_, ?_, ?_, ?_, ?_, ?_, ?_, ?_⟩
  · intro hb hc hbad
    rcases hph : (s0UserPhase pid1 i0).2 with _ | _
    · rw [stage0Run_userfail flags pid1 i0 hc hb hph]
    · have := (s0UserPhase_true_iff pid1 i0).mp hph
      rcases hbad with h1 | ⟨v, hv, hne⟩ <;> simp_all
  · intro hb hc hbad
    rcases hph : (s0UserPhase pid1 i0).2 with _ | _
    · rw [stage0Run_userfail flags pid1 i0 hc hb hph]
    · have := (s0UserPhase_true_iff pid1 i0).mp hph
      rcases hbad with h1 | ⟨v, hv, hne⟩ <;> simp_all
  · intro hc hbad
    rcases hu : (if flags &&& CLONE_NEWUSER ≠ 0 then s0UserPhase pid1 i0 else ([], true)).2
      with _ | _
    · by_cases hb : flags &&& CLONE_NEWUSER ≠ 0
      · rw [stage0Run_userfail flags pid1 i0 hc hb (by simpa [hb] using hu)]
      · simp [hb] at hu
    · rw [stage0Run_go flags pid1 i0 hc hu]
      rcases s0Tail_outcome i0 with h | h
      · exfalso
        have := (s0Tail_exit0_iff i0).mp h
        rcases hbad with h1 | ⟨v, hv, hne⟩ <;> simp_all
      · exact h
  · intro hb hbad
    rcases hph : (s1UserPhase flags i1).2 with _ | _
    · rw [stage1Run_userfail flags pid2 i1 hph]
    · have := (s1UserPhase_true_iff flags i1 hb).mp hph
      rcases hbad with h1 | ⟨v, hv, hne⟩ <;> simp_all
  · intro hbad
    unfold stage2Run
    rcases hg : i2.rGrand with _ | v
    · simp [hg]
    · simp only [hg]
      rcases hbad with h1 | ⟨w, hw, hne⟩
      · rw [hg] at h1
        exact absurd h1 (by simp)
      · rw [hg] at hw
        injection hw with hw
        subst hw
        rw [if_pos hne]
  · simpa using stage0Run_recvCount_le flags pid1 i0 .up10 1 1
      (s0UserPhase_recvCount_up10 pid1 i0) (s0Tail_recvCount_up10 i0)
  · simpa using stage0Run_recvCount_le flags pid1 i0 .extDown 1 0
      (s0UserPhase_recvCount_extDown pid1 i0) (le_of_eq (s0Tail_recvCount_extDown i0))
  · simpa using stage0Run_recvCount_le flags pid1 i0 .gUp 0 1
      (le_of_eq (s0UserPhase_recvCount_gUp pid1 i0)) (s0Tail_recvCount_gUp i0)
  · have hph := s1UserPhase_recvCount flags i1
    have hns := s1NsPhase_recvCount flags i1 .down01
    have hsp := s1SpawnPhase_recvCount 0 i1 .down01
    have hex : recvCount .down01 [Act.exitA 1] = 0 := rfl
    rcases hu2 : (s1UserPhase flags i1).2 with _ | _
    · rw [stage1Run_userfail flags pid2 i1 hu2]
      simp only [recvCount_append, List.append_assoc]
      omega
    · rcases hn2 : (s1NsPhase flags i1).2 with _ | _
      · rw [stage1Run_nsfail flags pid2 i1 hu2 hn2]
        simp only [recvCount_append, List.append_assoc]
        omega
      · rw [stage1Run_go flags pid2 i1 hu2 hn2]
        simp only [recvCount_append, List.append_assoc]
        have hsp' := s1SpawnPhase_recvCount pid2 i1 .down01
        omega
  · exact stage2Run_recvCount i2 g

/-- Witness for C8: with everything else succeeding, a wrong final token
(9 instead of `SYNC_CHILD_FINISH`) makes Stage-0 exit 1. -/
theorem claim_C8_witness :
    (stage0Run 0 5 { allOk0 with rFinish := some 9 }).2.1 = .exited 1 :=
  (claim_C8 0 5 7 { allOk0 with rFinish := some 9 } allOk1 allOk2 globals0).2.2.1
    rfl (Or.inr ⟨9, rfl, by decide⟩)

/-- C9: `init_pid` is written only in the Stage-0 branch, and every
process in which the constructor returns into the managed runtime still
has it at −1: the NORMAL and INIT dispatch branches return with
`init_pid = -1`; the Stage-0 branch never returns (its outcome is always
`exit(0)` or `exit(1)`); Stage-1 never returns; and Stage-2, which
inherited the globals snapshot from before Stage-0's assignment
(`is_init_process = 0`, `init_pid = -1`), returns with `init_pid`
untouched, so `kontainer_get_init_pid()` yields −1 there. -/
theorem claim_C9 :
    (∀ e g, (kontainer_bootstrap_entry e).2 = .ret g → kontainer_get_init_pid g = -1) ∧
    (∀ parse syncfd sp1 sp2 pid1 i,
      (bootstrapStage0 parse syncfd sp1 sp2 pid1 i).2.1 ≠ .returned) ∧
    (∀ flags pid2 i, (stage1Run flags pid2 i).2 ≠ .returned) ∧
    (∀ i g, (stage2Run i g).2.2.initPid = g.initPid) ∧
    (∀ i, (stage2Run i globals0).2.1 = .returned →
      kontainer_get_init_pid (stage2Run i globals0).2.2 = -1) := by
  refine ⟨?_, ?_, ?_, ?_, ?_⟩
  · intro e g h
    unfold kontainer_bootstrap_entry at h
    split_ifs at h
    · injection h with h2
      rw [← h2]
      rfl
    · injection h with h2
      rw [← h2]
      rfl
  · intro parse syncfd sp1 sp2 pid1 i
    unfold bootstrapStage0
    rcases parse with c | ⟨v, cfg⟩
    · simp
    · by_cases h1 : v < 0
      · simp [h1]
      · simp only [h1, if_false]
        split_ifs
        · simp
        · simp
        · simp
        · rcases stage0Run_outcome cfg.cloneFlags pid1 i with h | h <;> simp [h]
  · intro flags pid2 i
    rcases stage1Run_outcome flags pid2 i with h | h <;> simp [h]
  · intro i g
    exact stage2Run_initPid i g
  · intro i _
    rw [kontainer_get_init_pid, stage2Run_initPid]
    rfl

/-- Witness for C9: the successful Stage-2 run still reports
`init_pid = -1`. -/
theorem claim_C9_witness :
    kontainer_get_init_pid (stage2Run allOk2 globals0).2.2 = -1 :=
  claim_C9.2.2.2.2 allOk2 (by decide)

/-- Witness for C2 at `clone_flags = CLONE_NEWUSER ||| CLONE_NEWPID`. -/
theorem claim_C2_witness :
    (unsharesOf (stage1Run 0x30000000 42 allOk1).1).head? = some CLONE_NEWUSER ∧
    (unsharesOf (stage1Run 0x30000000 42 allOk1).1).count CLONE_NEWUSER = 1 :=
  (claim_C2 0x30000000 42).2.2.1 (by decide)

end Kontainer
